import Mathlib

/-
Verification of the Dependency-Aware Population Engine of BulkDB-CLI.

The definitions below are shallow embeddings of the Python source under
src/core (validators.py, populator.py, data_generator.py,
advanced_relationships.py, schema_analyzer.py).  Database queries are
modelled as explicit oracle parameters (an `Except Unit _` result models a
psycopg2 query that can raise), and the pseudo-random generator is modelled
as an oracle structure `Rng` whose fields supply the draws the source takes
from Python's `random` module.  Python `None` is the `PyVal.vnull`
constructor; a missing JSON key in the master dataset is modelled as an
empty list.
-/

namespace BulkDB

/-- Python runtime values produced by the generator: `vnull` is Python
`None`; dates, timestamps and timedeltas are modelled by their integer
components. -/
inductive PyVal where
  | vnull
  | vint (n : Int)
  | vstr (s : String)
  | vbool (b : Bool)
  | vfloat (q : ℚ)
  | vdate (day : Int)
  | vtimestamp (sec : Int)
  | vtime (h m s : Nat)
  | vjson (id : Nat) (name : String)
deriving DecidableEq, Repr

/-- Whether a pattern char-list occurs at the start of another. -/
def startsWithList : List Char → List Char → Bool
  | [], _ => true
  | _ :: _, [] => false
  | p :: ps, c :: cs => p == c && startsWithList ps cs

/-- Whether a pattern char-list occurs anywhere inside another
(Python's `needle in haystack` on strings). -/
def containsList (pat : List Char) : List Char → Bool
  | [] => pat.isEmpty
  | c :: cs => startsWithList pat (c :: cs) || containsList pat cs

/-- Python `needle in haystack` for strings. -/
def pyIn (needle haystack : String) : Bool :=
  containsList needle.toList haystack.toList

/-- Python string slicing `s[:n]`. -/
def strTake (s : String) (n : Nat) : String :=
  String.mk (s.toList.take n)

/- ----------------------------------------------------------------
Dependency Resolver (src/core/validators.py).
A dependency graph is the Python dict built by
`DataValidator._build_dependency_graph`: an association list from a table
name to the list of tables it references through foreign keys.
---------------------------------------------------------------- -/

/-- A dependency graph: table name to its list of foreign-key targets. -/
abbrev DepGraph := List (String × List String)

/-- Python `graph.get(table, [])`. -/
def graphGet (g : DepGraph) (t : String) : List String :=
  ((g.find? (fun p => p.fst == t)).map (fun p => p.snd)).getD []

/-- The recursive `dfs` of `DataValidator._topological_sort`: the pair is
(visited set, result list); the node is appended to the result after all of
its dependencies have been visited.  `fuel` bounds the recursion depth; the
source recursion always terminates because the visited set grows inside a
finite graph, and `topologicalSort` below passes fuel larger than any
possible depth. -/
def dfsNode (g : DepGraph) : Nat → String → (List String × List String) → (List String × List String)
  | 0, _, vr => vr
  | fuel + 1, t, vr =>
    if t ∈ vr.1 then vr
    else
      let vr2 := (graphGet g t).foldl (fun acc d => dfsNode g fuel d acc) (t :: vr.1, vr.2)
      (vr2.1, vr2.2 ++ [t])

/-- `DataValidator._topological_sort(graph, start_table)`: depth-first
post-order accumulation followed by `result[::-1]`. -/
def topologicalSort (g : DepGraph) (startTable : String) : List String :=
  (dfsNode g (g.length + (g.map (fun p => p.snd.length)).sum + 1) startTable ([], [])).2.reverse

/-- `DataValidator.get_population_priority`: keep, in resolver order, the
tables other than the start table that are currently empty.  The row-count
query behind `_is_table_empty` is the oracle `isEmptyTable`. -/
def getPopulationPriority (g : DepGraph) (isEmptyTable : String → Bool) (tableName : String) : List String :=
  (topologicalSort g tableName).filter (fun tbl => tbl != tableName && isEmptyTable tbl)

/-- Three-table chain used to exercise the resolver: `a` references `b`,
`b` references `c`. -/
def chainGraph : DepGraph := [("a", ["b"]), ("b", ["c"]), ("c", [])]

/-- C1: the claim states that `resolve`/`populationPriority` list every
dependency before its dependent.  On the chain `a → b → c` (all tables
empty) the source's reversal at the end of `_topological_sort` produces the
opposite order: `resolve("a") = [a, b, c]` and
`populationPriority("a") = [b, c]`, where `c` is a dependency of `b` yet
appears after it.  This contradicts the claimed order (the post-order list
before reversal already had dependencies first). -/
theorem c1_resolver_order_bug :
    topologicalSort chainGraph "a" = ["a", "b", "c"] ∧
    getPopulationPriority chainGraph (fun _ => true) "a" = ["b", "c"] ∧
    "c" ∈ graphGet chainGraph "b" ∧
    (getPopulationPriority chainGraph (fun _ => true) "a").indexOf "b" <
      (getPopulationPriority chainGraph (fun _ => true) "a").indexOf "c" := by
  refine ⟨by decide, by decide, by decide, by decide⟩

/- ----------------------------------------------------------------
Batch Population Engine (src/core/populator.py).
A record is abstracted to a value of an arbitrary type `α`; whether the
store accepts a row (no constraint violation) is the oracle
`valid : α → Bool`, and `psycopg2.cursor.executemany` raises exactly when
some row of the batch is rejected.
---------------------------------------------------------------- -/

/-- `DatabasePopulator._insert_records_individually`: one
insert/commit-or-rollback per record, counting successes and errors. -/
def insertRecordsIndividually (valid : α → Bool) (batch : List α) : Nat × Nat :=
  batch.foldl (fun acc record => if valid record then (acc.1 + 1, acc.2) else (acc.1, acc.2 + 1)) (0, 0)

/-- `DatabasePopulator._insert_batch`: empty batches return `(0, 0)`; a
bulk insert succeeds iff every row is valid and then credits the whole
batch length; otherwise the batch is rolled back and retried row by row
(in the source the interim `error_count = len(batch)` is overwritten by
the row-level error count, so only the row-level counts survive). -/
def insertBatch (valid : α → Bool) (batch : List α) : Nat × Nat :=
  if batch.isEmpty then (0, 0)
  else if batch.all valid then (batch.length, 0)
  else insertRecordsIndividually valid batch

/-- The generation loop of `DatabasePopulator._generate_data_in_batches`,
with `remaining = total_records - records_generated` and `generated` the
running offset; a record is `gen i g` for the in-batch index `i` and the
global index `g = records_generated + i`.  A `batchSize` of zero makes the
source loop forever; that case is cut off here and excluded by every
statement below. -/
def generateBatchesAux (gen : Nat → Nat → α) (batchSize : Nat) : Nat → Nat → List (List α)
  | 0, _ => []
  | remaining + 1, generated =>
    if batchSize = 0 then []
    else
      ((List.range (min batchSize (remaining + 1))).map (fun i => gen i (generated + i))) ::
        generateBatchesAux gen batchSize (remaining + 1 - min batchSize (remaining + 1))
          (generated + min batchSize (remaining + 1))
  termination_by remaining _ => remaining
  decreasing_by omega

/-- `DatabasePopulator._generate_data_in_batches(column_data, total_records,
batch_size, ...)`, starting with `records_generated = 0`. -/
def generateDataInBatches (gen : Nat → Nat → α) (totalRecords batchSize : Nat) : List (List α) :=
  generateBatchesAux gen batchSize totalRecords 0

/-- `DatabasePopulator.populate_table`: generate the batches, insert each
one in order, and accumulate the per-batch success and error counts. -/
def populateTable (valid : α → Bool) (gen : Nat → Nat → α) (recordCount batchSize : Nat) : Nat × Nat :=
  (generateDataInBatches gen recordCount batchSize).foldl
    (fun acc batch =>
      let outcome := insertBatch valid batch
      (acc.1 + outcome.1, acc.2 + outcome.2)) (0, 0)

/-- Row-by-row retry returns exactly the count of valid rows as successes
and of invalid rows as errors. -/
theorem insertRecordsIndividually_eq (valid : α → Bool) (batch : List α) :
    insertRecordsIndividually valid batch =
      (batch.countP valid, batch.countP (fun r => !valid r)) := by
  suffices h : ∀ s e, batch.foldl
      (fun acc record => if valid record then (acc.1 + 1, acc.2) else (acc.1, acc.2 + 1)) (s, e) =
      (s + batch.countP valid, e + batch.countP (fun r => !valid r)) by
    simpa [insertRecordsIndividually] using h 0 0
  induction batch with
  | nil => intro s e; simp
  | cons r rest ih =>
    intro s e
    by_cases hr : valid r
    · simp [List.countP_cons, hr, ih, Nat.add_comm, Nat.add_assoc, Nat.add_left_comm]
    · simp [List.countP_cons, hr, ih, Nat.add_comm, Nat.add_assoc, Nat.add_left_comm]

/-- In every case the two counters of a batch insertion sum to the batch
length. -/
theorem insertBatch_sum (valid : α → Bool) (batch : List α) :
    (insertBatch valid batch).1 + (insertBatch valid batch).2 = batch.length := by
  unfold insertBatch
  by_cases he : batch.isEmpty
  · simp [he, List.isEmpty_iff.mp he]
  · by_cases ha : batch.all valid
    · simp [he, ha]
    · simp [he, ha, insertRecordsIndividually_eq]
      simpa [Bool.not_eq_true] using (List.length_eq_countP_add_countP (fun r => valid r = true) batch).symm

/-- C2: whenever the bulk insert of a batch fails (some row is invalid),
the batch is retried row by row and the final counts are exactly the
number of still-valid rows as successes and the number of failing rows as
errors. -/
theorem c2_bulk_failure_row_retry (valid : α → Bool) (batch : List α)
    (hfail : ∃ r ∈ batch, valid r = false) :
    insertBatch valid batch =
      (batch.countP valid, batch.countP (fun r => !valid r)) := by
  obtain ⟨r, hr, hvr⟩ := hfail
  have hne : batch.isEmpty = false := by
    cases batch with
    | nil => cases hr
    | cons a l => rfl
  have hall : batch.all valid = false := by
    rcases Bool.eq_false_or_eq_true (batch.all valid) with h | h
    · exact absurd ((List.all_eq_true.mp h) r hr) (by simp [hvr])
    · exact h
  simp [insertBatch, hne, hall, insertRecordsIndividually_eq]

/-- Witness for C2 at the spec scenario: a batch of three rows in which
exactly row 2 violates a constraint yields 2 successes and 1 error. -/
theorem c2_bulk_failure_row_retry_witness :
    insertBatch (fun r => r != 2) [1, 2, 3] = (2, 1) ∧
    [1, 2, 3].countP (fun r => (r != 2 : Bool)) = 2 := by
  have h := c2_bulk_failure_row_retry (fun r => r != 2) [1, 2, 3] ⟨2, by decide, by decide⟩
  exact ⟨by rw [h]; decide, by decide⟩

/-- Unfolding equation for the base case of the generation loop. -/
theorem generateBatchesAux_zero (gen : Nat → Nat → α) (bs g : Nat) :
    generateBatchesAux gen bs 0 g = [] := by
  rw [generateBatchesAux]

/-- Unfolding equation for the inductive step of the generation loop. -/
theorem generateBatchesAux_succ (gen : Nat → Nat → α) (bs rem g : Nat) :
    generateBatchesAux gen bs (rem + 1) g =
      if bs = 0 then []
      else ((List.range (min bs (rem + 1))).map (fun i => gen i (g + i))) ::
        generateBatchesAux gen bs (rem + 1 - min bs (rem + 1)) (g + min bs (rem + 1)) := by
  rw [generateBatchesAux]

/-- The number of batches is the ceiling of `remaining / batchSize`. -/
theorem generateBatchesAux_length (gen : Nat → Nat → α) (bs : Nat) (hbs : 1 ≤ bs) :
    ∀ rem g, (generateBatchesAux gen bs rem g).length = (rem + bs - 1) / bs := by
  intro rem
  induction rem using Nat.strong_induction_on with
  | _ rem ih =>
    intro g
    match rem with
    | 0 =>
      rw [generateBatchesAux_zero]
      have : bs - 1 < bs := by omega
      simp [Nat.div_eq_of_lt this]
    | r + 1 =>
      rw [generateBatchesAux_succ]
      have hbs0 : ¬ bs = 0 := by omega
      rw [if_neg hbs0]
      have hlt : r + 1 - min bs (r + 1) < r + 1 := by omega
      simp only [List.length_cons, ih _ hlt]
      rcases Nat.le_total bs (r + 1) with hle | hle
      · have hmin : min bs (r + 1) = bs := by omega
        rw [hmin]
        have h1 : r + 1 - bs + bs - 1 = r := by omega
        have h2 : r + 1 + bs - 1 = r + bs := by omega
        rw [h1, h2, Nat.add_div_right _ (by omega)]
      · have hmin : min bs (r + 1) = r + 1 := by omega
        rw [hmin]
        have h1 : r + 1 - (r + 1) + bs - 1 = bs - 1 := by omega
        have h2 : r + 1 + bs - 1 = r + bs := by omega
        rw [h1, h2, Nat.div_eq_of_lt (by omega), Nat.add_div_right _ (by omega),
          Nat.div_eq_of_lt (by omega)]

/-- Every generated batch holds at most `batchSize` records. -/
theorem generateBatchesAux_size_le (gen : Nat → Nat → α) (bs : Nat) :
    ∀ rem g, ∀ b ∈ generateBatchesAux gen bs rem g, b.length ≤ bs := by
  intro rem
  induction rem using Nat.strong_induction_on with
  | _ rem ih =>
    intro g b hb
    match rem with
    | 0 => rw [generateBatchesAux_zero] at hb; cases hb
    | r + 1 =>
      rw [generateBatchesAux_succ] at hb
      by_cases hbs0 : bs = 0
      · rw [if_pos hbs0] at hb; cases hb
      · rw [if_neg hbs0] at hb
        rcases List.mem_cons.mp hb with h | h
        · subst h; simp [Nat.min_le_left]
        · exact ih (r + 1 - min bs (r + 1)) (by omega) _ b h

/-- The generated batches cover exactly `remaining` records in total. -/
theorem generateBatchesAux_total (gen : Nat → Nat → α) (bs : Nat) (hbs : 1 ≤ bs) :
    ∀ rem g, ((generateBatchesAux gen bs rem g).map List.length).sum = rem := by
  intro rem
  induction rem using Nat.strong_induction_on with
  | _ rem ih =>
    intro g
    match rem with
    | 0 => rw [generateBatchesAux_zero]; rfl
    | r + 1 =>
      rw [generateBatchesAux_succ, if_neg (by omega : ¬ bs = 0)]
      have hlt : r + 1 - min bs (r + 1) < r + 1 := by omega
      simp only [List.map_cons, List.sum_cons, List.length_map, List.length_range, ih _ hlt]
      omega

/-- Folding batch insertion accumulates the total record count into
`successCount + errorCount`. -/
theorem foldl_insertBatch_sum (valid : α → Bool) :
    ∀ (batches : List (List α)) (s e : Nat),
      (batches.foldl (fun acc batch =>
        let outcome := insertBatch valid batch
        (acc.1 + outcome.1, acc.2 + outcome.2)) (s, e)).1 +
      (batches.foldl (fun acc batch =>
        let outcome := insertBatch valid batch
        (acc.1 + outcome.1, acc.2 + outcome.2)) (s, e)).2 =
      s + e + (batches.map List.length).sum := by
  intro batches
  induction batches with
  | nil => intro s e; simp
  | cons b rest ih =>
    intro s e
    have hsum := insertBatch_sum valid b
    simp only [List.foldl_cons, List.map_cons, List.sum_cons, ih]
    omega

/-- C3: for every `recordCount` and `batchSize ≥ 1`, the populator
partitions the records into `⌈recordCount / batchSize⌉` batches of size at
most `batchSize`, and the success and error counts returned by
`populate_table` always sum to `recordCount`. -/
theorem c3_batch_partition (gen : Nat → Nat → α) (valid : α → Bool) (n bs : Nat)
    (hbs : 1 ≤ bs) :
    (generateDataInBatches gen n bs).length = (n + bs - 1) / bs ∧
    (∀ b ∈ generateDataInBatches gen n bs, b.length ≤ bs) ∧
    (populateTable valid gen n bs).1 + (populateTable valid gen n bs).2 = n := by
  refine ⟨generateBatchesAux_length gen bs hbs n 0,
    generateBatchesAux_size_le gen bs n 0, ?_⟩
  have h := foldl_insertBatch_sum valid (generateDataInBatches gen n bs) 0 0
  have ht : ((generateDataInBatches gen n bs).map List.length).sum = n :=
    generateBatchesAux_total gen bs hbs n 0
  simpa [populateTable, ht] using h

/-- Witness for C3 at the spec scenario: 5 records with batch size 2 give
exactly 3 batches of sizes `[2, 2, 1]` whose counts sum to 5. -/
theorem c3_batch_partition_witness :
    ((generateDataInBatches (fun _ g => g) 5 2).length = (5 + 2 - 1) / 2 ∧
      (∀ b ∈ generateDataInBatches (fun _ g => g) 5 2, b.length ≤ 2) ∧
      (populateTable (fun _ => true) (fun _ g => g) 5 2).1 +
        (populateTable (fun _ => true) (fun _ g => g) 5 2).2 = 5) ∧
    (generateDataInBatches (fun _ g => g) 5 2).map List.length = [2, 2, 1] := by
  refine ⟨c3_batch_partition (fun _ g => g) (fun _ => true) 5 2 (by decide), ?_⟩
  have e : generateDataInBatches (fun (_ g : Nat) => g) 5 2 = [[0, 1], [2, 3], [4]] := by
    rw [generateDataInBatches, show (5 : Nat) = 4 + 1 from rfl, generateBatchesAux_succ]
    norm_num
    rw [show (3 : Nat) = 2 + 1 from rfl, generateBatchesAux_succ]
    norm_num
    rw [show (1 : Nat) = 0 + 1 from rfl, generateBatchesAux_succ]
    norm_num [generateBatchesAux_zero, List.range_succ]
  rw [e]
  rfl

/- ----------------------------------------------------------------
Relationship Analyzer (src/core/schema_analyzer.py and
src/core/advanced_relationships.py).
Catalog queries are `Except Unit _` oracles: `Except.error` models a
`psycopg2.Error` raised while executing the query.
---------------------------------------------------------------- -/

/-- A foreign-key relationship dict as built by
`SchemaAnalyzer.analyze_relationships`. -/
structure Relationship where
  column : String
  foreignTable : String
  foreignColumn : String
  relationshipType : String
  onUpdate : String
  onDelete : String
deriving DecidableEq, Repr

/-- `SchemaAnalyzer._determine_relationship_type`: the source always
answers the default `uno_a_muchos` (one-to-many). -/
def determineRelationshipType (_table1 _table2 : String) : String :=
  "uno_a_muchos"

/-- `RelationshipManager._determine_cardinality`.  `distinctQ` is the
`COUNT(DISTINCT col)` query on the target column and `uniqueConstraintQ`
the count of UNIQUE constraints on it; a failure of either query is caught
and the basic relationship type is returned unchanged. -/
def determineCardinality (rel : Relationship) (distinctQ : Except Unit Nat)
    (uniqueConstraintQ : Except Unit Nat) : String :=
  match distinctQ with
  | Except.error _ => rel.relationshipType
  | Except.ok foreignUnique =>
    if rel.relationshipType == "uno_a_muchos" then
      match uniqueConstraintQ with
      | Except.error _ => rel.relationshipType
      | Except.ok constraintCount =>
        let hasUnique := constraintCount > 0
        if hasUnique && foreignUnique == 1 then "uno_a_uno_exacto"
        else if hasUnique then "uno_a_uno_potencial"
        else rel.relationshipType
    else rel.relationshipType

/-- `RelationshipManager._check_data_availability`: row count and distinct
values of the target column, with the catch-all default on query failure. -/
structure Availability where
  hasData : Bool
  totalRecords : Nat
  distinctValuesCount : Nat
  values : List PyVal
deriving DecidableEq, Repr

/-- Builds the availability snapshot from the two catalog queries of
`_check_data_availability`; any failure yields the empty default. -/
def checkDataAvailability (countQ : Except Unit Nat)
    (distinctValuesQ : Except Unit (List PyVal)) : Availability :=
  match countQ, distinctValuesQ with
  | Except.ok total, Except.ok vals => ⟨total > 0, total, vals.length, vals⟩
  | _, _ => ⟨false, 0, 0, []⟩

/-- `RelationshipManager._generate_recommendation`, over an availability
snapshot of the target table. -/
def generateRecommendation (rel : Relationship) (avail : Availability) : String :=
  if !avail.hasData then "Poblar tabla " ++ rel.foreignTable ++ " primero"
  else if avail.distinctValuesCount < 10 then
    "Solo " ++ toString avail.distinctValuesCount ++ " valores únicos disponibles"
  else if rel.relationshipType == "muchos_a_muchos" then
    "Considerar tabla intermedia para relación muchos-a-muchos"
  else "Relación lista para usar"

/-- One entry of the dict built by
`RelationshipManager.analyze_advanced_relationships`: the basic
relationship dict is kept (spread with `**rel`) and the upgraded
classification is stored under the separate `cardinality` key. -/
structure AdvRelationship where
  rel : Relationship
  cardinality : String
  dataAvailability : Availability
  recommendation : String
deriving DecidableEq, Repr

/-- `RelationshipManager.analyze_advanced_relationships` for a single
foreign-key edge. -/
def analyzeAdvancedRelationship (rel : Relationship) (distinctQ uniqueConstraintQ : Except Unit Nat)
    (countQ : Except Unit Nat) (distinctValuesQ : Except Unit (List PyVal)) : AdvRelationship :=
  let avail := checkDataAvailability countQ distinctValuesQ
  ⟨rel, determineCardinality rel distinctQ uniqueConstraintQ, avail,
    generateRecommendation rel avail⟩

/-- C4: cardinality classification defaults to one-to-many
(`uno_a_muchos`, the only value `_determine_relationship_type` produces),
is `uno_a_uno_exacto` exactly when the unique-constraint query succeeds
with a positive count and the distinct-value query succeeds with exactly
one value, is `uno_a_uno_potencial` when the constraint exists and more
than one distinct value is present, stays at the default without a unique
constraint, and degrades to the default when either catalog query fails
instead of aborting. -/
theorem c4_cardinality_classification (col ft fc ou od t1 t2 : String)
    (distinctQ uniqueConstraintQ : Except Unit Nat) :
    (∀ a b : String, determineRelationshipType a b = "uno_a_muchos") ∧
    ((determineCardinality ⟨col, ft, fc, determineRelationshipType t1 t2, ou, od⟩
        distinctQ uniqueConstraintQ = "uno_a_uno_exacto") ↔
      (distinctQ = Except.ok 1 ∧ ∃ u, uniqueConstraintQ = Except.ok u ∧ 0 < u)) ∧
    (∀ d u, distinctQ = Except.ok d → uniqueConstraintQ = Except.ok u → 0 < u → 1 < d →
      determineCardinality ⟨col, ft, fc, determineRelationshipType t1 t2, ou, od⟩
        distinctQ uniqueConstraintQ = "uno_a_uno_potencial") ∧
    (∀ d, distinctQ = Except.ok d → uniqueConstraintQ = Except.ok 0 →
      determineCardinality ⟨col, ft, fc, determineRelationshipType t1 t2, ou, od⟩
        distinctQ uniqueConstraintQ = "uno_a_muchos") ∧
    ((distinctQ = Except.error () ∨ uniqueConstraintQ = Except.error ()) →
      determineCardinality ⟨col, ft, fc, determineRelationshipType t1 t2, ou, od⟩
        distinctQ uniqueConstraintQ = "uno_a_muchos") := by
  refine ⟨fun a b => rfl, ?_, ?_, ?_, ?_⟩
  · constructor
    · intro h
      match distinctQ, uniqueConstraintQ with
      | Except.error e, _ =>
        exact absurd h (by cases e; simp [determineCardinality, determineRelationshipType])
      | Except.ok d, Except.error e =>
        exact absurd h (by cases e; simp [determineCardinality, determineRelationshipType])
      | Except.ok d, Except.ok u =>
        by_cases hu : 0 < u
        · by_cases hd : d = 1
          · subst hd; exact ⟨rfl, u, rfl, hu⟩
          · exfalso
            have hpot : determineCardinality ⟨col, ft, fc, determineRelationshipType t1 t2, ou, od⟩
                (Except.ok d) (Except.ok u) = "uno_a_uno_potencial" := by
              simp [determineCardinality, determineRelationshipType, hu, hd]
            rw [hpot] at h
            exact absurd h (by decide)
        · exfalso
          have hu0 : u = 0 := by omega
          subst hu0
          have hdef : determineCardinality ⟨col, ft, fc, determineRelationshipType t1 t2, ou, od⟩
              (Except.ok d) (Except.ok 0) = "uno_a_muchos" := by
            simp [determineCardinality, determineRelationshipType]
          rw [hdef] at h
          exact absurd h (by decide)
    · rintro ⟨hd, u, hu, hupos⟩
      subst hd; subst hu
      simp [determineCardinality, determineRelationshipType, hupos]
  · intro d u hd hu hupos hd1
    subst hd; subst hu
    have : ¬ d = 1 := by omega
    simp [determineCardinality, determineRelationshipType, hupos, this]
  · intro d hd hu
    subst hd; subst hu
    simp [determineCardinality, determineRelationshipType]
  · rintro (h | h)
    · subst h; simp [determineCardinality, determineRelationshipType]
    · subst h
      match distinctQ with
      | Except.error _ => simp [determineCardinality, determineRelationshipType]
      | Except.ok d => simp [determineCardinality, determineRelationshipType]

/-- Witness for C4: with a unique constraint and a single distinct value
the classification is `uno_a_uno_exacto`. -/
theorem c4_cardinality_classification_witness :
    determineCardinality ⟨"customer_id", "customers", "id", determineRelationshipType "orders" "customers", "NO ACTION", "NO ACTION"⟩
      (Except.ok 1) (Except.ok 1) = "uno_a_uno_exacto" :=
  (c4_cardinality_classification "customer_id" "customers" "id" "NO ACTION" "NO ACTION"
    "orders" "customers" (Except.ok 1) (Except.ok 1)).2.1.mpr ⟨rfl, 1, rfl, by decide⟩

/-- `RelationshipManager._generate_fallback_values`: typed fallback values
when the target table has no data.  `foreignColType` is the data type of
the foreign column when `get_table_columns` finds it (`none` models both a
missing column and a query failure), and `rbool` supplies the
`random.choice([True, False])` draws. -/
def generateFallbackValues (foreignColType : Option String) (count : Nat)
    (rbool : Nat → Bool) : List PyVal :=
  match foreignColType with
  | some dt =>
    if pyIn "int" dt then (List.range count).map (fun i => PyVal.vint (i + 1))
    else if pyIn "char" dt || pyIn "text" dt then
      (List.range count).map (fun i => PyVal.vstr ("temp_" ++ toString (i + 1)))
    else if pyIn "bool" dt then (List.range count).map (fun i => PyVal.vbool (rbool i))
    else (List.range count).map (fun i => PyVal.vint (i + 1))
  | none => (List.range count).map (fun i => PyVal.vint (i + 1))

/-- The `while len(result) < count` completion loop of the one-to-one
branch of `generate_relationship_data`: append random choices from the
pool, then `result[:count]`. -/
def fillToCount (values : List PyVal) (count : Nat) (choiceAt : Nat → Nat) : List PyVal :=
  (values ++ (List.range (count - values.length)).map
    (fun i => (values.get? (choiceAt i % values.length)).getD PyVal.vnull)).take count

/-- `RelationshipManager.generate_relationship_data`.  The branch decision
reads the `relationship_type` key of the relationship dict (not the
`cardinality` key written by `analyze_advanced_relationships`).
`sampleOracle` models `random.sample` (without replacement) and `choiceAt`
the successive `random.choice` draws as pool indices. -/
def generateRelationshipData (avail : Availability) (relationshipType : String)
    (count : Nat) (fallback : List PyVal) (sampleOracle : List PyVal → Nat → List PyVal)
    (choiceAt : Nat → Nat) : List PyVal :=
  if !avail.hasData then fallback
  else
    let values := avail.values
    if relationshipType == "uno_a_uno" then
      if count ≤ values.length then sampleOracle values count
      else fillToCount values count choiceAt
    else
      (List.range count).map (fun i => (values.get? (choiceAt i % values.length)).getD PyVal.vnull)

/-- The concrete foreign-key edge used to exhibit the C8 divergence. -/
def relC8 : Relationship :=
  ⟨"profile_id", "profiles", "id", determineRelationshipType "users" "profiles",
    "NO ACTION", "NO ACTION"⟩

/-- C8: the claim promises sampling without replacement for edges the
analyzer classifies `OneToOne`.  The analyzer stores its upgrade
(`uno_a_uno_potencial` here, from a unique constraint with two distinct
values) under the `cardinality` key while leaving `relationship_type` at
`uno_a_muchos`, and `generate_relationship_data` branches on
`relationship_type == "uno_a_uno"` — a value nothing ever assigns.  So an
edge classified one-to-one, with a pool of 2 ≥ N = 2 distinct values, is
drawn with replacement and can repeat a value, refuting pairwise
distinctness. -/
theorem c8_one_to_one_sampling_bug :
    (∀ a b : String, determineRelationshipType a b = "uno_a_muchos") ∧
    (analyzeAdvancedRelationship relC8 (Except.ok 2) (Except.ok 1) (Except.ok 2)
        (Except.ok [PyVal.vint 1, PyVal.vint 2])).cardinality = "uno_a_uno_potencial" ∧
    (analyzeAdvancedRelationship relC8 (Except.ok 2) (Except.ok 1) (Except.ok 2)
        (Except.ok [PyVal.vint 1, PyVal.vint 2])).rel.relationshipType = "uno_a_muchos" ∧
    (analyzeAdvancedRelationship relC8 (Except.ok 2) (Except.ok 1) (Except.ok 2)
        (Except.ok [PyVal.vint 1, PyVal.vint 2])).dataAvailability.values.length = 2 ∧
    generateRelationshipData
      (analyzeAdvancedRelationship relC8 (Except.ok 2) (Except.ok 1) (Except.ok 2)
        (Except.ok [PyVal.vint 1, PyVal.vint 2])).dataAvailability
      (analyzeAdvancedRelationship relC8 (Except.ok 2) (Except.ok 1) (Except.ok 2)
        (Except.ok [PyVal.vint 1, PyVal.vint 2])).rel.relationshipType
      2 [] (fun l n => l.take n) (fun _ => 0) = [PyVal.vint 1, PyVal.vint 1] ∧
    ¬ (List.Nodup [PyVal.vint 1, PyVal.vint 1]) := by
  refine ⟨fun a b => rfl, by decide, by decide, by decide, by decide, by decide⟩

/- ----------------------------------------------------------------
Value Generation Engine (src/core/data_generator.py).
`Rng` is an oracle for the draws the source takes from Python's `random`
module (and the current clock); `Dataset` is the parsed master dataset,
with a missing JSON key modelled as the empty list and each
`(category, subcategory)` lookup of `_get_random_value` resolved to the
corresponding field at its call site.  The `str.format` patterns stored in
the dataset are modelled as functions of the fields they interpolate.
---------------------------------------------------------------- -/

/-- Oracle for the random draws and the clock used by the generator. -/
structure Rng where
  rfloat : ℚ
  rnat : Nat → Nat → Nat
  rindex : Nat → Nat
  rbool : Bool
  rdigits : Nat → String
  rfill : String → String
  runiform : ℚ → ℚ → ℚ
  ruuid : String
  nowDay : Int
  nowSec : Int

/-- The parsed master dataset (`base_values`, `generation_patterns` and
`table_context_hints`); `companies` and `products` are the flattened
concatenations the source builds from the category sub-dicts. -/
structure Dataset where
  maleFirst : List String
  femaleFirst : List String
  lastNames : List String
  emailDomains : List String
  emailFormats : List (String → String → String → String → String)
  phoneCuba : List (String → String)
  phoneIntl : List (String → String → String → String → String → String)
  addressCuba : List (String → String → String → String → String → String → String)
  addressIntl : List (String → String → String → String → String)
  internationalCities : List String
  cubanProvinces : List String
  countries : List String
  cubanStreets : List String
  cubanMunicipalities : List String
  productDescriptions : List String
  jobTitles : List String
  departments : List String
  statusTypes : List String
  companies : List String
  products : List String
  animalNames : List String
  dogBreeds : List String
  catBreeds : List String
  codes : List (String × List String)
  hints : List (String × List (String × String))

/-- The mutable per-instance state of `DataGenerator`: the uniqueness
tracker (a dict keyed by column name alone) and the sequential-code
counters. -/
structure GenState where
  uniqueValueTracker : List (String × List PyVal)
  sequenceCounters : List (String × Nat)
deriving DecidableEq, Repr

/-- Abstraction of Python `str()` on the values the generator produces. -/
def pyStr : PyVal → String
  | PyVal.vnull => "None"
  | PyVal.vint n => toString n
  | PyVal.vstr s => s
  | PyVal.vbool b => if b then "True" else "False"
  | PyVal.vfloat q => toString q
  | PyVal.vdate d => "date-" ++ toString d
  | PyVal.vtimestamp s => "timestamp-" ++ toString s
  | PyVal.vtime h m s => toString h ++ ":" ++ toString m ++ ":" ++ toString s
  | PyVal.vjson i n => "json-" ++ toString i ++ "-" ++ n

/-- Python truthiness of the modelled values. -/
def pyTruthy : PyVal → Bool
  | PyVal.vnull => false
  | PyVal.vint n => n != 0
  | PyVal.vstr s => !(s == "")
  | PyVal.vbool b => b
  | PyVal.vfloat q => q != 0
  | PyVal.vdate _ => true
  | PyVal.vtimestamp _ => true
  | PyVal.vtime h m s => !(h == 0 && m == 0 && s == 0)
  | PyVal.vjson _ _ => true

/-- Python `str.lower()`, modelled over the character list. -/
def pyLower (s : String) : String := String.mk (s.toList.map Char.toLower)

/-- Python `str.upper()`, modelled over the character list. -/
def pyUpper (s : String) : String := String.mk (s.toList.map Char.toUpper)

/-- Python `x or default` for a possibly-`None`/falsy string value. -/
def orDefaultStr (v : PyVal) (default : String) : String :=
  if pyTruthy v then pyStr v else default

/-- `random.choice` over a list, with the index supplied by the oracle;
`none` only for the empty list (where Python raises). -/
def pyChoice (r : Rng) (l : List α) : Option α :=
  l.get? (r.rindex l.length % l.length)

/-- A `random.choice` between two values. -/
def pyChoice2 (r : Rng) (a b : PyVal) : PyVal :=
  if r.rindex 2 % 2 == 0 then a else b

/-- `DataGenerator._get_random_value`:
`random.choice(values) if values else None`. -/
def getRandomValue (r : Rng) (values : List String) : PyVal :=
  if values.isEmpty then PyVal.vnull
  else match pyChoice r values with
    | some s => PyVal.vstr s
    | none => PyVal.vnull

/-- `DataGenerator._get_random_company` over the flattened company list. -/
def getRandomCompany (ds : Dataset) (r : Rng) : String :=
  if ds.companies.isEmpty then "Default Company"
  else (pyChoice r ds.companies).getD "Default Company"

/-- `DataGenerator._get_random_product` over the flattened product list. -/
def getRandomProduct (ds : Dataset) (r : Rng) : String :=
  if ds.products.isEmpty then "Default Product"
  else (pyChoice r ds.products).getD "Default Product"

/-- `DataGenerator._get_random_animal_breed` over dog and cat breeds. -/
def getRandomAnimalBreed (ds : Dataset) (r : Rng) : String :=
  let allBreeds := ds.dogBreeds ++ ds.catBreeds
  if allBreeds.isEmpty then "Mixed Breed"
  else (pyChoice r allBreeds).getD "Mixed Breed"

/-- `DataGenerator._generate_email`: dataset-driven pattern, or the
`user<n>@example.com` fallback when names or domains are missing. -/
def generateEmail (ds : Dataset) (r : Rng) : String :=
  let firstNames := ds.maleFirst ++ ds.femaleFirst
  if firstNames.isEmpty || ds.lastNames.isEmpty || ds.emailDomains.isEmpty then
    "user" ++ toString (r.rnat 1000 9999) ++ "@example.com"
  else
    let first := (pyLower ((pyChoice r firstNames).getD "")).replace " " ""
    let last := (pyLower ((pyChoice r ds.lastNames).getD "")).replace " " ""
    let domain := (pyChoice r ds.emailDomains).getD ""
    match pyChoice r ds.emailFormats with
    | some fmt => fmt first last (strTake first 1) domain
    | none => first ++ "." ++ last ++ "@" ++ domain

/-- `DataGenerator._generate_phone`. -/
def generatePhone (ds : Dataset) (r : Rng) : String :=
  if r.rbool && !ds.phoneCuba.isEmpty then
    ((pyChoice r ds.phoneCuba).getD (fun _ => "")) (r.rdigits 8)
  else if !ds.phoneIntl.isEmpty then
    ((pyChoice r ds.phoneIntl).getD (fun _ _ _ _ _ => ""))
      (r.rdigits 3) (r.rdigits 4) (r.rdigits 9) (r.rdigits 10) (r.rdigits 11)
  else
    "+1-" ++ toString (r.rnat 200 999) ++ "-" ++ toString (r.rnat 200 999) ++
      "-" ++ toString (r.rnat 1000 9999)

/-- `DataGenerator._generate_address`. -/
def generateAddress (ds : Dataset) (r : Rng) : String :=
  if r.rbool && !ds.addressCuba.isEmpty then
    ((pyChoice r ds.addressCuba).getD (fun _ _ _ _ _ _ => ""))
      (orDefaultStr (getRandomValue r ds.cubanStreets) "Calle Unknown")
      (toString (r.rnat 1 9999))
      (orDefaultStr (getRandomValue r ds.cubanStreets) "Calle A")
      (orDefaultStr (getRandomValue r ds.cubanStreets) "Calle B")
      (orDefaultStr (getRandomValue r ds.cubanMunicipalities) "Municipio")
      (orDefaultStr (getRandomValue r ds.cubanProvinces) "Provincia")
  else if !ds.addressIntl.isEmpty then
    ((pyChoice r ds.addressIntl).getD (fun _ _ _ _ => ""))
      (toString (r.rnat 1 9999))
      (orDefaultStr (getRandomValue r ds.cubanStreets) "Street")
      (orDefaultStr (getRandomValue r ds.internationalCities) "City")
      (orDefaultStr (getRandomValue r ds.countries) "Country")
  else
    toString (r.rnat 1 9999) ++ " Main Street, City, Country"

/-- `DataGenerator._generate_personal_name`; it can return `None` when the
name lists are missing from the dataset. -/
def generatePersonalName (ds : Dataset) (r : Rng) (columnName : String) : PyVal :=
  let firstNamesMale := getRandomValue r ds.maleFirst
  let firstNamesFemale := getRandomValue r ds.femaleFirst
  let lastNames := getRandomValue r ds.lastNames
  let cl := pyLower columnName
  if pyIn "first" cl || pyIn "nombre" cl then pyChoice2 r firstNamesMale firstNamesFemale
  else if pyIn "last" cl || pyIn "apellido" cl then lastNames
  else
    PyVal.vstr (pyStr (pyChoice2 r firstNamesMale firstNamesFemale) ++ " " ++ pyStr lastNames)

/-- `DataGenerator._generate_birth_date`: between 80 and 18 years before
today, in day units (365·62 = 22630 possible offsets). -/
def generateBirthDate (r : Rng) : PyVal :=
  PyVal.vdate (r.nowDay - 365 * 80 + (r.rnat 0 22630 : Int))

/-- `DataGenerator._generate_recent_timestamp`: within the last two years,
in seconds (2·365·86400 = 63072000). -/
def generateRecentTimestamp (r : Rng) : PyVal :=
  PyVal.vtimestamp (r.nowSec - 63072000 + (r.rnat 0 63072000 : Int))

/-- `DataGenerator._generate_random_date`: a date between 2020-01-01
(epoch day 18262) and 2023-12-31 (1460 days later). -/
def generateRandomDate (r : Rng) : PyVal :=
  PyVal.vdate (18262 + (r.rnat 0 1460 : Int))

/-- Python `round(q, 2)`. -/
def pyRound2 (q : ℚ) : ℚ := (round (q * 100) : ℤ) / 100

/-- `DataGenerator._generate_realistic_price`. -/
def generateRealisticPrice (r : Rng) : PyVal :=
  PyVal.vfloat (pyRound2 (r.runiform 5 500))

/-- `DataGenerator._generate_code`: the first code type whose name occurs
in the column name wins; `rfill` models the `_fill_pattern` regex
substitutions of random digits/letters. -/
def generateCode (ds : Dataset) (r : Rng) (columnName : String) : String :=
  match ds.codes.find? (fun p => pyIn p.1 (pyLower columnName)) with
  | some p => r.rfill ((pyChoice r p.2).getD "")
  | none => "CODE" ++ toString (r.rnat 10000 99999)

/-- Zero-padding to six digits (the `:06d` format). -/
def padZeros6 (n : Nat) : String :=
  let s := toString n
  String.mk (List.replicate (6 - s.length) '0') ++ s

/-- Counter lookup in the `sequence_counters` dict (default 0). -/
def lookupCounter (st : GenState) (c : String) : Nat :=
  ((st.sequenceCounters.find? (fun p => p.1 == c)).map (fun p => p.2)).getD 0

/-- Association-list update used for both generator dicts. -/
def updCounters : List (String × Nat) → String → Nat → List (String × Nat)
  | [], c, n => [(c, n)]
  | (k, v) :: rest, c, n =>
    if k == c then (k, n) :: rest else (k, v) :: updCounters rest c n

/-- `DataGenerator._generate_sequential_code`: increments the per-column
counter and formats `NAME-NNNNNN`. -/
def generateSequentialCode (st : GenState) (columnName : String) : String × GenState :=
  let next := lookupCounter st columnName + 1
  (pyUpper columnName ++ "-" ++ padZeros6 next,
    GenState.mk st.uniqueValueTracker (updCounters st.sequenceCounters columnName next))

/-- `DataGenerator._generate_business_email`; the `company.com` default of
the source's `.get` is applied when no domains are present. -/
def generateBusinessEmail (ds : Dataset) (r : Rng) : String :=
  let companies := getRandomCompany ds r
  let domains := if ds.emailDomains.isEmpty then ["company.com"] else ds.emailDomains
  let companyName := pyLower (((companies.splitOn " ").filter (fun w => w ≠ "")).headD "company")
  let filtered := domains.filter (fun d => pyIn "company" d || pyIn "business" d)
  let pool := if filtered.isEmpty then domains else filtered
  let domain := (pyChoice r pool).getD "company.com"
  "info@" ++ companyName ++ "." ++ ((domain.splitOn ".").getLastD "")

/-- `DataGenerator._generate_business_address`. -/
def generateBusinessAddress (ds : Dataset) (r : Rng) : String :=
  "Oficinas Centrales " ++ getRandomCompany ds r ++ ", " ++
    pyStr (getRandomValue r ds.internationalCities)

/-- Exact-key lookup in a dict modelled as an association list. -/
def lookupExact (l : List (String × β)) (key : String) : Option β :=
  (l.find? (fun p => p.1 == key)).map (fun p => p.2)

/-- `DataGenerator._generate_from_hint`: dispatch on the hint tag; an
unknown tag yields `None`.  Only the `code_sequential` hint touches the
generator state. -/
def generateFromHint (ds : Dataset) (r : Rng) (st : GenState)
    (hint columnName _dataType : String) : PyVal × GenState :=
  if hint == "personal_names" then
    let a := getRandomValue r ds.maleFirst
    (if pyTruthy a then a else getRandomValue r ds.femaleFirst, st)
  else if hint == "email" then (PyVal.vstr (generateEmail ds r), st)
  else if hint == "phone" then (PyVal.vstr (generatePhone ds r), st)
  else if hint == "date_age_based" then (generateBirthDate r, st)
  else if hint == "timestamp_recent" then (generateRecentTimestamp r, st)
  else if hint == "products_services" then (PyVal.vstr (getRandomProduct ds r), st)
  else if hint == "product_description" then (getRandomValue r ds.productDescriptions, st)
  else if hint == "price_realistic" then (generateRealisticPrice r, st)
  else if hint == "animal_names" then (getRandomValue r ds.animalNames, st)
  else if hint == "animal_breeds" then (PyVal.vstr (getRandomAnimalBreed ds r), st)
  else if hint == "companies" then (PyVal.vstr (getRandomCompany ds r), st)
  else if hint == "address_business" then (PyVal.vstr (generateBusinessAddress ds r), st)
  else if hint == "job_titles" then (getRandomValue r ds.jobTitles, st)
  else if hint == "departments" then (getRandomValue r ds.departments, st)
  else if hint == "code_sequential" then
    let p := generateSequentialCode st columnName
    (PyVal.vstr p.1, p.2)
  else if hint == "order_status" then (getRandomValue r ds.statusTypes, st)
  else if hint == "email_business" then (PyVal.vstr (generateBusinessEmail ds r), st)
  else (PyVal.vnull, st)

/-- The pattern loop of `_generate_from_table_context`: the first hint
entry whose table pattern occurs in the lowercased table name and that has
a truthy hint for the column wins. -/
def contextHintLoop (ds : Dataset) (r : Rng) (st : GenState)
    (tnLower clLower columnName dataType : String) : PyVal × GenState :=
  match ds.hints.find? (fun p =>
      pyIn p.1 tnLower && ((lookupExact p.2 clLower).getD "") ≠ "") with
  | some p => generateFromHint ds r st ((lookupExact p.2 clLower).getD "") columnName dataType
  | none => (PyVal.vnull, st)

/-- `DataGenerator._generate_from_table_context`: `None` without a truthy
table name; an exact table-name hit with a column hint short-circuits,
otherwise the substring pattern loop runs. -/
def generateFromTableContext (ds : Dataset) (r : Rng) (st : GenState)
    (tableName : Option String) (columnName dataType : String) : PyVal × GenState :=
  match tableName with
  | none => (PyVal.vnull, st)
  | some tn =>
    if tn = "" then (PyVal.vnull, st)
    else
      let tnLower := pyLower tn
      let clLower := pyLower columnName
      match lookupExact ds.hints tnLower with
      | some cols =>
        match lookupExact cols clLower with
        | some h =>
          if h ≠ "" then generateFromHint ds r st h columnName dataType
          else contextHintLoop ds r st tnLower clLower columnName dataType
        | none => contextHintLoop ds r st tnLower clLower columnName dataType
      | none => contextHintLoop ds r st tnLower clLower columnName dataType

/-- `DataGenerator._generate_from_column_name`: keyword inference on the
lowercased column name, in the source's elif order; the `data_type` and
`max_length` parameters are accepted and unused, as in the source. -/
def generateFromColumnName (ds : Dataset) (r : Rng)
    (columnName _dataType : String) (_maxLength : Option Nat) : PyVal :=
  let cl := pyLower columnName
  if pyIn "name" cl || pyIn "nombre" cl then generatePersonalName ds r columnName
  else if pyIn "email" cl then PyVal.vstr (generateEmail ds r)
  else if pyIn "phone" cl || pyIn "tel" cl || pyIn "telefono" cl then
    PyVal.vstr (generatePhone ds r)
  else if pyIn "address" cl || pyIn "direccion" cl || pyIn "dirección" cl then
    PyVal.vstr (generateAddress ds r)
  else if pyIn "date" cl || pyIn "fecha" cl then
    if pyIn "birth" cl || pyIn "nacimiento" cl then generateBirthDate r
    else if pyIn "created" cl || pyIn "creado" cl then generateRecentTimestamp r
    else generateRandomDate r
  else if pyIn "city" cl || pyIn "ciudad" cl then getRandomValue r ds.internationalCities
  else if pyIn "province" cl || pyIn "provincia" cl then getRandomValue r ds.cubanProvinces
  else if pyIn "country" cl || pyIn "pais" cl || pyIn "país" cl then
    getRandomValue r ds.countries
  else if pyIn "company" cl || pyIn "empresa" cl then PyVal.vstr (getRandomCompany ds r)
  else if pyIn "product" cl || pyIn "producto" cl then PyVal.vstr (getRandomProduct ds r)
  else if pyIn "description" cl || pyIn "descripcion" cl || pyIn "descripción" cl then
    getRandomValue r ds.productDescriptions
  else if pyIn "code" cl || pyIn "codigo" cl || pyIn "código" cl then
    PyVal.vstr (generateCode ds r columnName)
  else if pyIn "price" cl || pyIn "precio" cl || pyIn "cost" cl || pyIn "costo" cl then
    generateRealisticPrice r
  else if pyIn "status" cl || pyIn "estado" cl then getRandomValue r ds.statusTypes
  else PyVal.vnull

/-- `DataGenerator._generate_smart_text`: column-name inference with the
`text` tag, the tagged fallback for falsy results, and truncation to
`max_length` (Python skips it when `max_length` is `None` or 0). -/
def generateSmartText (ds : Dataset) (r : Rng) (columnName : String)
    (maxLength : Option Nat) : String :=
  let contextual := generateFromColumnName ds r columnName "text" maxLength
  let value := if pyTruthy contextual then pyStr contextual
    else "text_value_" ++ toString (r.rnat 1000 9999)
  match maxLength with
  | some m => if m ≠ 0 && m < value.length then strTake value m else value
  | none => value

/-- `DataGenerator._generate_by_data_type`: the declared-type fallback
layer; every branch produces a value, the unrecognized-type branch a
tagged placeholder string. -/
def generateByDataType (ds : Dataset) (r : Rng)
    (dataType columnName : String) (maxLength : Option Nat) : PyVal :=
  let dtl := pyLower dataType
  if pyIn "integer" dtl || pyIn "int" dtl then
    if pyIn "edad" (pyLower columnName) || pyIn "age" (pyLower columnName) then
      PyVal.vint (r.rnat 18 80)
    else PyVal.vint (r.rnat 1 1000)
  else if pyIn "boolean" dtl || pyIn "bool" dtl then
    PyVal.vbool (r.rindex 2 % 2 == 0)
  else if pyIn "timestamp" dtl then generateRecentTimestamp r
  else if pyIn "date" dtl then generateRandomDate r
  else if pyIn "time" dtl then PyVal.vtime (r.rnat 0 23) (r.rnat 0 59) (r.rnat 0 59)
  else if pyIn "character varying" dtl || pyIn "varchar" dtl || pyIn "text" dtl then
    PyVal.vstr (generateSmartText ds r columnName maxLength)
  else if pyIn "numeric" dtl || pyIn "decimal" dtl then
    PyVal.vfloat (pyRound2 (r.runiform 1 1000))
  else if pyIn "real" dtl || pyIn "double precision" dtl then
    PyVal.vfloat (r.runiform 1 100)
  else if pyIn "uuid" dtl then PyVal.vstr r.ruuid
  else if pyIn "json" dtl || pyIn "jsonb" dtl then
    PyVal.vjson (r.rnat 1 100) ("item_" ++ toString (r.rnat 1 100))
  else PyVal.vstr ("value_" ++ toString (r.rnat 1000 9999))

/-- Tracked set for a column in the uniqueness dict (empty if absent). -/
def lookupTracker (st : GenState) (c : String) : List PyVal :=
  ((st.uniqueValueTracker.find? (fun p => p.1 == c)).map (fun p => p.2)).getD []

/-- Adding a value to a column's tracked set (`tracker[col].add(value)`,
creating the set when absent). -/
def updTracker : List (String × List PyVal) → String → PyVal → List (String × List PyVal)
  | [], c, v => [(c, [v])]
  | (k, vs) :: rest, c, v =>
    if k == c then (k, v :: vs) :: rest else (k, vs) :: updTracker rest c v

/-- One collision perturbation of `_ensure_uniqueness`: numbers get a
random offset, anything else restarts from the original value with a
random numeric suffix. -/
def perturbValue (r : Rng) (original v : PyVal) : PyVal :=
  match v with
  | PyVal.vint n => PyVal.vint (n + (r.rnat 1 1000 : Int))
  | PyVal.vfloat q => PyVal.vfloat (q + (r.rnat 1 1000 : ℚ))
  | _ => PyVal.vstr (pyStr original ++ "_" ++ toString (r.rnat 1000 9999))

/-- The `while value in tracker and attempts < 100` loop of
`_ensure_uniqueness`. -/
def ensureLoop (r : Rng) (original : PyVal) (seen : List PyVal) : Nat → PyVal → PyVal
  | 0, v => v
  | attempts + 1, v =>
    if v ∈ seen then ensureLoop r original seen attempts (perturbValue r original v) else v

/-- `DataGenerator._ensure_uniqueness`: a no-op unless `is_unique`;
otherwise perturb on collision (at most 100 attempts) against the set
tracked for this column name, then record the final value.  The tracker
key is the column name alone — the function receives no table name. -/
def ensureUniqueness (r : Rng) (st : GenState) (value : PyVal)
    (columnName : String) (isUnique : Bool) : PyVal × GenState :=
  if !isUnique then (value, st)
  else
    let seen := lookupTracker st columnName
    let v := ensureLoop r value seen 100 value
    (v, GenState.mk (updTracker st.uniqueValueTracker columnName v) st.sequenceCounters)

/-- `DataGenerator.generate_value`: table-context layer, then column-name
layer, then declared-type layer, first non-`None` result wins, passed
through `_ensure_uniqueness`.  The `sample_data`, `existing_data`,
`is_primary_key` and `is_nullable` parameters of the source are unused in
its body and omitted here. -/
def generateValue (ds : Dataset) (r : Rng) (st : GenState)
    (dataType columnName : String) (maxLength : Option Nat)
    (tableName : Option String) (isUnique : Bool) : PyVal × GenState :=
  let tc := generateFromTableContext ds r st tableName columnName dataType
  if tc.1 ≠ PyVal.vnull then ensureUniqueness r tc.2 tc.1 columnName isUnique
  else
    let cb := generateFromColumnName ds r columnName dataType maxLength
    if cb ≠ PyVal.vnull then ensureUniqueness r tc.2 cb columnName isUnique
    else
      ensureUniqueness r tc.2 (generateByDataType ds r dataType columnName maxLength)
        columnName isUnique

/-- `DataGenerator.clear_cache`. -/
def clearCache (_st : GenState) : GenState := GenState.mk [] []

/-- A collision perturbation never produces `None`. -/
theorem perturbValue_ne_null (r : Rng) (original v : PyVal) :
    perturbValue r original v ≠ PyVal.vnull := by
  cases v <;> simp [perturbValue]

/-- The uniqueness retry loop never turns a non-`None` value into `None`. -/
theorem ensureLoop_ne_null (r : Rng) (original : PyVal) (seen : List PyVal) :
    ∀ attempts v, v ≠ PyVal.vnull → ensureLoop r original seen attempts v ≠ PyVal.vnull := by
  intro attempts
  induction attempts with
  | zero => intro v hv; simpa [ensureLoop] using hv
  | succ n ih =>
    intro v hv
    rw [ensureLoop]
    by_cases hm : v ∈ seen
    · rw [if_pos hm]; exact ih _ (perturbValue_ne_null r original v)
    · rw [if_neg hm]; exact hv

/-- `_ensure_uniqueness` never turns a non-`None` value into `None`. -/
theorem ensureUniqueness_ne_null (r : Rng) (st : GenState) (value : PyVal)
    (columnName : String) (isUnique : Bool) (hv : value ≠ PyVal.vnull) :
    (ensureUniqueness r st value columnName isUnique).1 ≠ PyVal.vnull := by
  cases isUnique with
  | false => simpa [ensureUniqueness] using hv
  | true =>
    simp only [ensureUniqueness, Bool.not_true, Bool.false_eq_true, if_false]
    exact ensureLoop_ne_null r value _ 100 value hv

set_option maxHeartbeats 1000000 in
/-- The declared-type fallback layer always produces a value. -/
theorem generateByDataType_ne_null (ds : Dataset) (r : Rng)
    (dataType columnName : String) (maxLength : Option Nat) :
    generateByDataType ds r dataType columnName maxLength ≠ PyVal.vnull := by
  simp only [generateByDataType]
  repeat' split
  all_goals exact fun h => PyVal.noConfusion h

/-- C9: for every column name, declared type, max length, table context
and uniqueness flag (and every dataset, random draw and generator state),
`generate_value` never returns `None`: the declared-type layer produces a
value whenever the table-context and column-name layers decline, and
uniqueness enforcement preserves it. -/
theorem c9_generate_value_never_null (ds : Dataset) (r : Rng) (st : GenState)
    (dataType columnName : String) (maxLength : Option Nat)
    (tableName : Option String) (isUnique : Bool) :
    (generateValue ds r st dataType columnName maxLength tableName isUnique).1 ≠
      PyVal.vnull := by
  unfold generateValue
  by_cases h1 : (generateFromTableContext ds r st tableName columnName dataType).1 ≠ PyVal.vnull
  · rw [if_pos h1]
    exact ensureUniqueness_ne_null _ _ _ _ _ h1
  · rw [if_neg h1]
    by_cases h2 : generateFromColumnName ds r columnName dataType maxLength ≠ PyVal.vnull
    · rw [if_pos h2]
      exact ensureUniqueness_ne_null _ _ _ _ _ h2
    · rw [if_neg h2]
      exact ensureUniqueness_ne_null _ _ _ _ _
        (generateByDataType_ne_null ds r dataType columnName maxLength)

/-- The dataset with every key missing (the `_load_master_dataset`
fallback). -/
def emptyDataset : Dataset :=
  ⟨[], [], [], [], [], [], [], [], [], [], [], [], [], [], [], [], [], [], [], [],
    [], [], [], [], []⟩

/-- A concrete random oracle: `random.random()` draws 0, every `randint`
draws 1234, every choice picks index 0. -/
def fixedRng : Rng :=
  ⟨0, fun _ _ => 1234, fun _ => 0, true, fun _ => "", fun s => s, fun a _ => a, "u", 0, 0⟩

/-- A fresh generator state (empty tracker and counters). -/
def emptyState : GenState := GenState.mk [] []

/-- C6 counterexample: a column named `email` of type `character varying`
with `max_length = 3` gets its value from the column-name layer
(`_generate_email`), which `generate_value` returns without any
truncation: the produced string has length 20 > 3.  The `[:max_length]`
slice exists only inside `_generate_smart_text`, which this path never
reaches. -/
theorem c6_truncation_counterexample :
    (generateValue emptyDataset fixedRng emptyState "character varying" "email"
        (some 3) none false).1 = PyVal.vstr "user1234@example.com" ∧
    3 < ("user1234@example.com" : String).length := by
  exact ⟨by decide, by decide⟩

/-- Slicing bounds the length. -/
theorem strTake_length_le (s : String) (m : Nat) : (strTake s m).length ≤ m := by
  have h : (strTake s m).length = (s.toList.take m).length := rfl
  rw [h, List.length_take]
  omega

/-- C6 amended: the truncation guarantee holds exactly where the source
implements it — strings produced by the declared-type text layer
(`_generate_smart_text`) never exceed a positive `max_length` — while a
column named `email` gets the untruncated output of `_generate_email`
from the column-name layer, whatever `max_length` says. -/
theorem c6_amended_truncation (ds : Dataset) (r : Rng) (columnName : String)
    (m : Nat) (hm : 1 ≤ m) :
    (generateSmartText ds r columnName (some m)).length ≤ m ∧
    (∀ st ml, (generateValue ds r st "character varying" "email" ml none false).1 =
      PyVal.vstr (generateEmail ds r)) := by
  constructor
  · unfold generateSmartText
    set value := if pyTruthy (generateFromColumnName ds r columnName "text" (some m)) then
        pyStr (generateFromColumnName ds r columnName "text" (some m))
      else "text_value_" ++ toString (r.rnat 1000 9999) with hvalue
    show (if m ≠ 0 && decide (m < value.length) then strTake value m else value).length ≤ m
    split
    · exact strTake_length_le value m
    · next h =>
      simp only [Bool.and_eq_true, decide_eq_true_eq, not_and] at h
      rcases Nat.lt_or_ge m value.length with hlt | hge
      · exact absurd hlt (h (by omega))
      · exact hge
  · intro st ml
    rfl

/-- Witness for C6 amended at `m = 3` on the empty dataset. -/
theorem c6_amended_truncation_witness :
    (1 : Nat) ≤ 3 ∧
    ((generateSmartText emptyDataset fixedRng "note" (some 3)).length ≤ 3 ∧
      (∀ st ml, (generateValue emptyDataset fixedRng st "character varying" "email" ml none false).1 =
        PyVal.vstr (generateEmail emptyDataset fixedRng))) :=
  ⟨by decide, c6_amended_truncation emptyDataset fixedRng "note" 3 (by decide)⟩

/-- C7 counterexample: uniqueness tracking is keyed by the column name
alone, so generating for table `t1` changes what a later generation for a
different table `t2` with the same column name produces: starting from a
fresh state `t2` gets 1234, but starting from the state `t1` left behind
it gets the perturbed 2468.  Independent per-(table, column) trackers
would give 1234 in both cases. -/
theorem c7_tracker_not_table_scoped :
    (generateValue emptyDataset fixedRng
        (generateValue emptyDataset fixedRng emptyState "integer" "ref" none
          (some "t1") true).2
        "integer" "ref" none (some "t2") true).1 = PyVal.vint 2468 ∧
    (generateValue emptyDataset fixedRng emptyState "integer" "ref" none
        (some "t2") true).1 = PyVal.vint 1234 ∧
    PyVal.vint 2468 ≠ PyVal.vint 1234 := by
  refine ⟨by decide, by decide, by decide⟩

/-- Updating one column's tracked set yields the new value on top for
that column. -/
theorem find?_updTracker_self (c : String) (v : PyVal) :
    ∀ tr : List (String × List PyVal),
      ((updTracker tr c v).find? (fun p => p.1 == c)).map (fun p => p.2) =
        some (v :: (((tr.find? (fun p => p.1 == c)).map (fun p => p.2)).getD [])) := by
  intro tr
  induction tr with
  | nil => simp [updTracker]
  | cons kv rest ih =>
    obtain ⟨k, vs⟩ := kv
    by_cases hk : k == c
    · simp [updTracker, hk, List.find?]
    · simp [updTracker, hk, List.find?, ih]

/-- Updating one column's tracked set leaves every other column's set
untouched. -/
theorem find?_updTracker_other (c c' : String) (v : PyVal) (hne : c' ≠ c) :
    ∀ tr : List (String × List PyVal),
      (updTracker tr c v).find? (fun p => p.1 == c') =
        tr.find? (fun p => p.1 == c') := by
  intro tr
  induction tr with
  | nil =>
    have : (c == c') = false := by
      simpa [beq_eq_false_iff_ne] using fun h => hne h.symm
    simp [updTracker, List.find?, this]
  | cons kv rest ih =>
    obtain ⟨k, vs⟩ := kv
    by_cases hk : k == c
    · have hkc : k = c := by simpa using hk
      have : (k == c') = false := by
        simp [beq_eq_false_iff_ne, hkc]
        exact fun h => hne h.symm
      simp [updTracker, hk, List.find?, this]
    · by_cases hk' : k == c'
      · simp [updTracker, hk, List.find?, hk']
      · simp [updTracker, hk, List.find?, hk', ih]

/-- C7 amended: uniqueness tracking is scoped per column name within one
`DataGenerator` state, with no table in the key: enforcing uniqueness for
column `c` leaves every other column's tracked set unchanged, pushes the
final value onto the set tracked for `c` (shared by all tables using that
column name), returns the value unchanged when it was not yet tracked for
`c`, and only an explicit `clear_cache` discards the sets. -/
theorem c7_amended_column_name_scoping (r : Rng) (st : GenState) (v : PyVal)
    (c c' : String) (hne : c' ≠ c) :
    lookupTracker (ensureUniqueness r st v c true).2 c' = lookupTracker st c' ∧
    lookupTracker (ensureUniqueness r st v c true).2 c =
      (ensureUniqueness r st v c true).1 :: lookupTracker st c ∧
    (v ∉ lookupTracker st c → (ensureUniqueness r st v c true).1 = v) ∧
    clearCache st = GenState.mk [] [] := by
  refine ⟨?_, ?_, ?_, rfl⟩
  · simp only [ensureUniqueness, Bool.not_true, Bool.false_eq_true, if_false]
    simp [lookupTracker, find?_updTracker_other c c' _ hne]
  · simp only [ensureUniqueness, Bool.not_true, Bool.false_eq_true, if_false]
    simp [lookupTracker, find?_updTracker_self]
  · intro hv
    simp only [ensureUniqueness, Bool.not_true, Bool.false_eq_true, if_false]
    rw [ensureLoop, if_neg hv]

/-- Witness for C7 amended on concrete column names `a ≠ b`. -/
theorem c7_amended_column_name_scoping_witness :
    ("a" : String) ≠ "b" ∧
    (lookupTracker (ensureUniqueness fixedRng emptyState (PyVal.vint 0) "b" true).2 "a" =
        lookupTracker emptyState "a" ∧
      lookupTracker (ensureUniqueness fixedRng emptyState (PyVal.vint 0) "b" true).2 "b" =
        (ensureUniqueness fixedRng emptyState (PyVal.vint 0) "b" true).1 ::
          lookupTracker emptyState "b" ∧
      (PyVal.vint 0 ∉ lookupTracker emptyState "b" →
        (ensureUniqueness fixedRng emptyState (PyVal.vint 0) "b" true).1 = PyVal.vint 0) ∧
      clearCache emptyState = GenState.mk [] []) :=
  ⟨by decide, c7_amended_column_name_scoping fixedRng emptyState (PyVal.vint 0) "b" "a"
    (by decide)⟩

/- ----------------------------------------------------------------
Per-column value generation of the populator
(`DatabasePopulator._generate_column_value` and `_prepare_column_data`).
---------------------------------------------------------------- -/

/-- A per-column configuration dict: `generation_type` (with the source's
`random` default already applied), `fixed_value` (`vnull` models an absent
key, which Python's `config.get` returns as `None`) and `start_value`
(`getD 1` applies the source's default). -/
structure GenConfig where
  generationType : String
  fixedValue : PyVal
  startValue : Option Int
deriving DecidableEq, Repr

/-- The three column-data shapes built by
`DatabasePopulator._prepare_column_data`, tagged like the source's `type`
key: a foreign-key column with its candidate pool, a configured column,
or a plain generated column. -/
inductive ColSpec where
  | foreignKey (values : List PyVal) (dataType isNullable : String) (maxLength : Option Nat)
  | configured (config : GenConfig) (dataType isNullable : String) (maxLength : Option Nat)
  | generated (dataType isNullable : String) (maxLength : Option Nat)
deriving Repr

/-- The `is_nullable` flag of a column spec. -/
def ColSpec.isNullable : ColSpec → String
  | ColSpec.foreignKey _ _ nl _ => nl
  | ColSpec.configured _ _ nl _ => nl
  | ColSpec.generated _ nl _ => nl

/-- `DatabasePopulator._generate_column_value`: the 10% null draw for
nullable columns comes first; then the configured branches (an unmatched
generation type falls through), the foreign-key pool, and finally the
generic `generate_value` call (which receives no table name and no
uniqueness flag, as in the source).  The `record_index` parameter is
accepted and unused, as in the source. -/
def generateColumnValue (ds : Dataset) (r : Rng) (st : GenState) (spec : ColSpec)
    (columnName : String) (_recordIndex globalIndex : Nat) : PyVal × GenState :=
  if spec.isNullable == "YES" && decide (r.rfloat < 1/10) then (PyVal.vnull, st)
  else
    match spec with
    | ColSpec.configured config dt _ ml =>
      if config.generationType == "fixed" then (config.fixedValue, st)
      else if config.generationType == "sequence" && pyIn "int" dt then
        (PyVal.vint (config.startValue.getD 1 + globalIndex), st)
      else if config.generationType == "true" then (PyVal.vbool true, st)
      else if config.generationType == "false" then (PyVal.vbool false, st)
      else generateValue ds r st dt columnName ml none false
    | ColSpec.foreignKey values dt _ ml =>
      if !values.isEmpty then ((pyChoice r values).getD PyVal.vnull, st)
      else generateValue ds r st dt columnName ml none false
    | ColSpec.generated dt _ ml => generateValue ds r st dt columnName ml none false

/-- The null branch of `_generate_column_value` fires for every nullable
column when the draw is below 0.1, whatever the rest of the spec is. -/
theorem generateColumnValue_nullDraw (ds : Dataset) (r : Rng) (st : GenState)
    (spec : ColSpec) (columnName : String) (i g : Nat) (hnul : spec.isNullable = "YES")
    (hr : r.rfloat < 1 / 10) :
    generateColumnValue ds r st spec columnName i g = (PyVal.vnull, st) := by
  unfold generateColumnValue
  have hcond : (spec.isNullable == "YES" && decide (r.rfloat < 1 / 10)) = true := by
    rw [hnul]
    simp only [beq_self_eq_true, Bool.true_and, decide_eq_true_eq]
    exact hr
  rw [if_pos hcond]

/-- C10: in `_generate_column_value` the nullability draw is evaluated
before the configured branches, the foreign-key pool and the generator
dispatch: whatever the column spec is, an `is_nullable = YES` column with
a draw below 0.1 yields `None`. -/
theorem c10_null_draw_first (ds : Dataset) (r : Rng) (st : GenState) (spec : ColSpec)
    (columnName : String) (i g : Nat) (hnul : spec.isNullable = "YES")
    (hr : r.rfloat < 1 / 10) :
    generateColumnValue ds r st spec columnName i g = (PyVal.vnull, st) :=
  generateColumnValue_nullDraw ds r st spec columnName i g hnul hr

/-- A nullable integer column configured as a sequence starting at 5. -/
def seqNullableSpec : ColSpec :=
  ColSpec.configured (GenConfig.mk "sequence" PyVal.vnull (some 5)) "integer" "YES" none

/-- Witness for C10: for the nullable sequence column and a first draw of
0, the generated value is `NULL` instead of the configured start value. -/
theorem c10_null_draw_first_witness :
    seqNullableSpec.isNullable = "YES" ∧ fixedRng.rfloat < 1 / 10 ∧
    generateColumnValue emptyDataset fixedRng emptyState seqNullableSpec "n" 0 0 =
      (PyVal.vnull, emptyState) ∧
    PyVal.vnull ≠ PyVal.vint 5 :=
  ⟨rfl, by norm_num [fixedRng],
    c10_null_draw_first emptyDataset fixedRng emptyState seqNullableSpec "n" 0 0 rfl
      (by norm_num [fixedRng]), by decide⟩

/-- C5 counterexample: a run of N = 1 record over the nullable sequence
column of `seqNullableSpec` with a null draw of 0 produces `[NULL]`, not
the arithmetic progression `[5]` the claim requires for every sequence
column. -/
theorem c5_sequence_counterexample :
    (generateDataInBatches (fun i g =>
        (generateColumnValue emptyDataset fixedRng emptyState seqNullableSpec "n" i g).1)
      1 1000).flatten = [PyVal.vnull] ∧
    [PyVal.vnull] ≠ [PyVal.vint 5] := by
  constructor
  · rw [generateDataInBatches, show (1 : Nat) = 0 + 1 from rfl, generateBatchesAux_succ]
    norm_num [generateBatchesAux_zero, List.range_succ]
    rw [generateColumnValue_nullDraw emptyDataset fixedRng emptyState seqNullableSpec "n"
      0 0 rfl (by norm_num [fixedRng])]
  · decide

/-- For an integer column configured as a sequence, when the null branch
cannot fire (`is_nullable ≠ YES`) the generated value is exactly
`start_value + global_index` and the generator state is untouched. -/
theorem generateColumnValue_sequence (ds : Dataset) (r : Rng) (st : GenState)
    (config : GenConfig) (dt nl : String) (ml : Option Nat) (columnName : String)
    (i g : Nat) (hseq : config.generationType = "sequence")
    (hint : pyIn "int" dt = true) (hnl : nl ≠ "YES") :
    generateColumnValue ds r st (ColSpec.configured config dt nl ml) columnName i g =
      (PyVal.vint (config.startValue.getD 1 + g), st) := by
  have hnlb : (nl == "YES") = false := beq_eq_false_iff_ne.mpr hnl
  unfold generateColumnValue
  rw [if_neg (by simp [ColSpec.isNullable, hnlb])]
  simp only [hseq, hint]
  norm_num [show (("sequence" : String) == "fixed") = false from rfl,
    show (("sequence" : String) == "sequence") = true from rfl]

/-- When the per-record generator factors through the global index, the
flattened batches are the map of that generator over the run's global
indices, in order. -/
theorem generateBatchesAux_flatten (f : Nat → α) (bs : Nat) (hbs : 1 ≤ bs) :
    ∀ rem g, (generateBatchesAux (fun _ gi => f gi) bs rem g).flatten =
      (List.range' g rem).map f := by
  intro rem
  induction rem using Nat.strong_induction_on with
  | _ rem ih =>
    intro g
    match rem with
    | 0 => rw [generateBatchesAux_zero]; simp
    | r + 1 =>
      rw [generateBatchesAux_succ, if_neg (by omega : ¬ bs = 0)]
      have hlt : r + 1 - min bs (r + 1) < r + 1 := by omega
      rw [List.flatten_cons, ih _ hlt]
      have hmap : (List.range (min bs (r + 1))).map (fun i => f (g + i)) =
          (List.range' g (min bs (r + 1))).map f := by
        rw [List.range'_eq_map_range, List.map_map]
        rfl
      rw [hmap, ← List.map_append]
      congr 1
      have happ := List.range'_append g (min bs (r + 1)) (r + 1 - min bs (r + 1)) 1
      rw [one_mul] at happ
      rw [show r + 1 - min bs (r + 1) + min bs (r + 1) = r + 1 by omega] at happ
      exact happ

/-- C5 amended: for every integer column configured with the sequence
generation type whose null branch cannot fire (`is_nullable ≠ YES`), the N
values generated across all batches of a run form the arithmetic
progression `start, start+1, …, start+N-1` in generation order; for
nullable columns the claim fails (see the counterexample). -/
theorem c5_amended_sequence_progression (ds : Dataset) (rs : Nat → Rng) (st : GenState)
    (config : GenConfig) (dt nl : String) (ml : Option Nat) (columnName : String)
    (n bs : Nat) (hbs : 1 ≤ bs) (hseq : config.generationType = "sequence")
    (hint : pyIn "int" dt = true) (hnl : nl ≠ "YES") :
    (generateDataInBatches (fun i g =>
        (generateColumnValue ds (rs g) st (ColSpec.configured config dt nl ml)
          columnName i g).1) n bs).flatten =
      (List.range n).map (fun k : Nat => PyVal.vint (config.startValue.getD 1 + (k : Int))) := by
  have hfun : (fun (i g : Nat) =>
      (generateColumnValue ds (rs g) st (ColSpec.configured config dt nl ml)
        columnName i g).1) =
      (fun (_ g : Nat) => PyVal.vint (config.startValue.getD 1 + g)) := by
    funext i g
    rw [generateColumnValue_sequence ds (rs g) st config dt nl ml columnName i g hseq
      hint hnl]
  rw [generateDataInBatches, hfun,
    generateBatchesAux_flatten (fun g => PyVal.vint (config.startValue.getD 1 + g)) bs hbs
      n 0,
    ← List.range_eq_range']

/-- Witness for C5 amended: 3 records, batch size 2, start value 5, on a
non-nullable integer column: the flattened run is `[5, 6, 7]`. -/
theorem c5_amended_sequence_progression_witness :
    ((GenConfig.mk "sequence" PyVal.vnull (some 5)).generationType = "sequence" ∧
      pyIn "int" "integer" = true ∧ ("NO" : String) ≠ "YES" ∧ (1 : Nat) ≤ 2) ∧
    (generateDataInBatches (fun i g =>
        (generateColumnValue emptyDataset fixedRng emptyState
          (ColSpec.configured (GenConfig.mk "sequence" PyVal.vnull (some 5)) "integer"
            "NO" none) "n" i g).1) 3 2).flatten =
      (List.range 3).map (fun k : Nat =>
        PyVal.vint ((GenConfig.mk "sequence" PyVal.vnull (some 5)).startValue.getD 1 + (k : Int))) :=
  ⟨⟨rfl, by decide, by decide, by decide⟩,
    c5_amended_sequence_progression emptyDataset (fun _ => fixedRng) emptyState
      (GenConfig.mk "sequence" PyVal.vnull (some 5)) "integer" "NO" none "n" 3 2
      (by decide) rfl (by decide) (by decide)⟩

end BulkDB
